import Mathlib

set_option maxHeartbeats 1000000

/- Shallow embedding of the crawl-and-extract engine in
   src/packages/plugin-basic/src/actions/seleniumflexibleAction.ts
   (with the duplicated Twitter-handle validation routine also present in
   src/unnamed/part_001). Browser interactions are modelled as oracle
   functions supplied to each definition; everything that the source
   computes itself is translated directly. -/

/-- model of a JavaScript runtime value as it flows through the extraction
pipeline. A promise carries an allocation id: two Promise objects created by
distinct calls are distinct values, matching JavaScript object identity as
used by Set membership. -/
inductive JSValue where
  | str (s : String)
  | num (n : Int)
  | nullV
  | undef
  | boolV (b : Bool)
  | promise (id : Nat)
  deriving DecidableEq, Repr

/-- JavaScript truthiness of a value. -/
def jsTruthy : JSValue → Bool
  | .str s => s != ""
  | .num n => n != 0
  | .nullV => false
  | .undef => false
  | .boolV b => b
  | .promise _ => true

/-- JavaScript Set.add on a Set represented as its insertion-ordered element
list: a value already present is ignored, a new value is appended. -/
def setAdd (s : List JSValue) (v : JSValue) : List JSValue :=
  if v ∈ s then s else s ++ [v]

/-- a thrown JavaScript error, identified by its name field, which is what
retryOperation inspects. -/
structure JsError where
  name : String
  deriving DecidableEq, Repr

/-- an extraction transform as declared in an ExtractionConfig. A sync
transform returns its value directly. Calling an async transform without
awaiting yields a fresh unresolved Promise object, never the eventual value;
the eventual value function is recorded but unreachable without an await.
The source calls the transform with the raw match as its only argument
(line 694), so a transform here is a function of the match string alone. -/
inductive Transform where
  | sync (f : String → JSValue)
  | async (f : String → JSValue)

/-- calling a transform, threading the Promise allocation counter: an async
call allocates a fresh Promise id and returns the Promise, not the value. -/
def callTransform (ctr : Nat) : Transform → String → JSValue × Nat
  | .sync f, m => (f m, ctr)
  | .async _, _ => (.promise ctr, ctr + 1)

/-- ExtractionConfig (lines 17-22): selectors, optional attribute to read
instead of text (field renamed attr because attribute is reserved in Lean),
optional transform, optional validate. -/
structure ExtractionConfig where
  selectors : List String
  attr : Option String
  transform : Option Transform
  validate : Option (JSValue → Bool)

/-- DataPattern (lines 24-28). Each regex is represented by an identifier;
its matching behavior on a text is supplied by the matchFn oracle given to
extractDataByPattern, since regex evaluation happens outside the pipeline
logic under study. -/
structure DataPattern where
  name : String
  patterns : List Nat
  config : ExtractionConfig

/-- line 692-695: value starts as the raw match and is replaced by the
transform result when a transform is present. -/
def applyTransform (ctr : Nat) (tOpt : Option Transform) (m : String) : JSValue × Nat :=
  match tOpt with
  | some t => callTransform ctr t m
  | none => (JSValue.str m, ctr)

/-- line 696: the guard on results.add, true when validate is absent or
accepts the value. -/
def passesValidate (vOpt : Option (JSValue → Bool)) (v : JSValue) : Bool :=
  match vOpt with
  | none => true
  | some vf => vf v

/-- lines 691-699: the per-match pipeline of extractDataByPattern. For each
regex match: the transform, when present, is called on the raw match without
awaiting; then the value is inserted into the result set unless a validate is
present and rejects it. -/
def processMatches (cfg : ExtractionConfig) : List String → List JSValue → Nat → List JSValue × Nat
  | [], results, ctr => (results, ctr)
  | m :: ms, results, ctr =>
    processMatches cfg ms
      (if passesValidate cfg.validate (applyTransform ctr cfg.transform m).1 then
        setAdd results (applyTransform ctr cfg.transform m).1
      else results)
      (applyTransform ctr cfg.transform m).2

/-- lines 688-701: the loop over the regexes of the pattern; a regex with no
match in the text (text.match returning null) contributes nothing. -/
def procRegexes (matchFn : Nat → String → Option (List String)) (cfg : ExtractionConfig)
    (text : String) : List Nat → List JSValue × Nat → List JSValue × Nat
  | [], acc => acc
  | rx :: rxs, acc =>
    procRegexes matchFn cfg text rxs
      (match matchFn rx text with
       | some ms => processMatches cfg ms acc.1 acc.2
       | none => acc)

/-- lines 678-706: the loop over the elements found for one selector. Each
element read yields either a thrown error (caught at line 703, element
skipped), a null attribute value, or a text; a falsy text is skipped by the
guard at line 687. -/
def procElements (matchFn : Nat → String → Option (List String)) (pat : DataPattern) :
    List (Except JsError (Option String)) → List JSValue × Nat → List JSValue × Nat
  | [], acc => acc
  | r :: rs, acc =>
    procElements matchFn pat rs
      (match r with
       | .ok (some t) => if t != "" then procRegexes matchFn pat.config t pat.patterns acc else acc
       | .ok none => acc
       | .error _ => acc)

/-- lines 668-710: the loop over the selectors of the pattern; a selector
whose element lookup throws after retries is skipped (catch at line 707). -/
def procSelectors (matchFn : Nat → String → Option (List String))
    (env : String → Except JsError (List (Except JsError (Option String))))
    (pat : DataPattern) : List String → List JSValue × Nat → List JSValue × Nat
  | [], acc => acc
  | sel :: sels, acc =>
    procSelectors matchFn env pat sels
      (match env sel with
       | .ok elems => procElements matchFn pat elems acc
       | .error _ => acc)

/-- extractDataByPattern (lines 658-716). bodyReady models the initial wait
for the body element: when it throws, the outer catch at line 711 fires and
the function returns the empty result set. matchFn gives the matches of each
regex in a text; env gives, per selector, the outcome of the element lookup
and of each element read (text or configured attribute). Returns the
insertion-ordered result set together with the Promise allocation counter. -/
def extractDataByPattern (bodyReady : Bool) (matchFn : Nat → String → Option (List String))
    (env : String → Except JsError (List (Except JsError (Option String))))
    (pat : DataPattern) : List JSValue × Nat :=
  if bodyReady then procSelectors matchFn env pat pat.config.selectors ([], 0) else ([], 0)

/-- state of one crawlAndExtract invocation: the result set, the visited set
(insertion ordered), the frontier queue, and the log of URLs passed to
driver.get in the loop body. -/
structure CrawlState where
  results : List JSValue
  visitedUrls : List String
  urlsToVisit : List String
  navLog : List String
  deriving Repr

/-- the while loop of crawlAndExtract (lines 560-624). pageValues gives, per
navigated URL, the stream of values inserted into the result set while
processing that URL (initial extraction plus the re-extractions that follow
interactions whose DOM snapshot changed); an error models a navigation or
page-processing failure caught at line 620, which skips the URL. As in the
source, the loop body pops the frontier, never pushes to it, and never
inserts into visitedUrls. -/
def crawlLoop (pageValues : String → Except JsError (List JSValue)) :
    List String → List String → List JSValue → List String → CrawlState
  | [], visited, results, nav => ⟨results, visited, [], nav⟩
  | currentUrl :: rest, visited, results, nav =>
    if visited.length < 10 then
      crawlLoop pageValues rest visited
        (match pageValues currentUrl with
         | .ok vs => vs.foldl setAdd results
         | .error _ => results)
        (nav ++ [currentUrl])
    else ⟨results, visited, currentUrl :: rest, nav⟩

/-- crawlAndExtract (lines 555-627): visited starts as the singleton set of
the seed URL and the frontier as the singleton queue of the seed URL. -/
def crawlAndExtract (pageValues : String → Except JsError (List JSValue))
    (baseUrl : String) : CrawlState :=
  crawlLoop pageValues [baseUrl] [baseUrl] [] []

/-- the attempt loop of retryOperation (lines 636-653), applied to the stream
of outcomes the operation produces on successive attempts: the list holds the
outcomes of attempts i = 0 .. maxRetries-1 in order, so the final list entry
is the attempt with i = maxRetries - 1. A stale-element error with a driver
present refreshes and continues; any other error on the final attempt is
rethrown at once; after the loop the last observed error is rethrown (error
none models the undefined lastError when the loop never ran). -/
def retryLoop {T : Type} (hasDriver : Bool) :
    List (Except JsError T) → Option JsError → Except (Option JsError) T
  | [], lastError => .error lastError
  | outcome :: rest, lastError =>
    match outcome, lastError with
    | .ok v, _ => .ok v
    | .error e, _ =>
      if e.name = "StaleElementReferenceError" ∧ hasDriver = true then
        retryLoop hasDriver rest (some e)
      else if rest.isEmpty = true then .error (some e)
      else retryLoop hasDriver rest (some e)

/-- retryOperation (lines 630-654): runs the for loop over attempt indices
0 .. maxRetries-1, where op i is the outcome of the operation on attempt i. -/
def retryOperation {T : Type} (op : Nat → Except JsError T) (maxRetries : Nat)
    (hasDriver : Bool) : Except (Option JsError) T :=
  retryLoop hasDriver ((List.range maxRetries).map op) none

/-- JavaScript Map.get on the validatedProfiles map. -/
def mapGet : List (String × Bool) → String → Option Bool
  | [], _ => none
  | (k, v) :: rest, u => if k = u then some v else mapGet rest u

/-- JavaScript Map.set: overwrite the existing entry in place or append. -/
def mapSet : List (String × Bool) → String → Bool → List (String × Bool)
  | [], u, b => [(u, b)]
  | (k, v) :: rest, u, b => if k = u then (k, b) :: rest else (k, v) :: mapSet rest u b

/-- process-wide validation state: the validatedProfiles cache (line 772) and
the log of handles for which the browser-side check was actually entered
(new window, navigation to the profile URL, script evaluation). -/
structure ValState where
  cache : List (String × Bool)
  navLog : List String
  deriving Repr

/-- validateTwitterUsername (lines 774-834): a cache hit returns the stored
boolean with no browser work at all; a cache miss runs the browser-side check
(modelled by the check oracle and recorded in navLog), caches and returns its
boolean, and a check that throws is caught, cached as false and reported as
false. -/
def validateTwitterUsername (check : String → Except JsError Bool)
    (st : ValState) (username : String) : Bool × ValState :=
  match mapGet st.cache username with
  | some b => (b, st)
  | none =>
    match check username with
    | .ok isValid => (isValid, ⟨mapSet st.cache username isValid, st.navLog ++ [username]⟩)
    | .error _ => (false, ⟨mapSet st.cache username false, st.navLog ++ [username]⟩)

/-- a sequence of validation calls sharing the process-wide cache. -/
def runValidations (check : String → Except JsError Bool) :
    ValState → List String → ValState
  | st, [] => st
  | st, u :: us => runValidations check (validateTwitterUsername check st u).2 us

/-- a transform or validate field of a generated pattern specification:
either still the source string from the JSON, or the function obtained from
it by the new Function conversion. -/
inductive GenFnSpec where
  | code (src : String)
  | compiled (src : String)
  deriving DecidableEq, Repr

/-- config object of a generated pattern specification; every field may be
absent. -/
structure GenConfig where
  selectors : Option (List String)
  transform : Option GenFnSpec
  validate : Option GenFnSpec
  deriving DecidableEq, Repr

/-- a generated pattern specification as parsed from JSON; every field may
be absent. -/
structure GenPattern where
  name : Option String
  patterns : Option (List String)
  config : Option GenConfig
  deriving DecidableEq, Repr

/-- JavaScript truthiness of an optional string field: absent and empty are
falsy, everything else truthy. -/
def strTruthy : Option String → Bool
  | none => false
  | some s => s != ""

/-- lines 843-848: a string-valued transform or validate is converted to a
function via new Function; anything else is left unchanged. -/
def convertFnSpec : Option GenFnSpec → Option GenFnSpec
  | some (.code s) => some (.compiled s)
  | o => o

/-- validateAndTransformPattern (lines 836-851): rejects with null exactly
when the name, patterns or config field is falsy. An array is truthy in
JavaScript even when empty, so neither the emptiness of the pattern list nor
the selectors field is ever inspected. -/
def validateAndTransformPattern (p : GenPattern) : Option GenPattern :=
  if !strTruthy p.name || p.patterns.isNone || p.config.isNone then none
  else
    some ⟨p.name, p.patterns,
      p.config.map fun c => ⟨c.selectors, convertFnSpec c.transform, convertFnSpec c.validate⟩⟩

/-- generateDataPattern (lines 481-517): a response that fails to parse (or
any thrown error) yields null via the catch; a parsed object is passed to
validateAndTransformPattern. -/
def generateDataPattern (parsed : Option GenPattern) : Option GenPattern :=
  match parsed with
  | none => none
  | some p => validateAndTransformPattern p

/-- lookup in the dataPatterns registry. -/
def lookupReg : List (String × GenPattern) → String → Option GenPattern
  | [], _ => none
  | (k, v) :: rest, u => if k = u then some v else lookupReg rest u

/-- lines 543-549 of determineDataTypes: for an unknown key, a generated
pattern that survived validation is registered and the key pushed; a null
result drops the key and leaves the registry unchanged. -/
def registerGenerated (registry : List (String × GenPattern)) (types : List String)
    (dataType : String) (generated : Option GenPattern) :
    List (String × GenPattern) × List String :=
  if (lookupReg registry dataType).isNone then
    match generated with
    | some p => (registry ++ [(dataType, p)], types ++ [dataType])
    | none => (registry, types)
  else (registry, types)

/-- whitespace class of the URL regex at line 739. -/
def isJsSpace (c : Char) : Bool :=
  c == ' ' || c == '\t' || c == '\n' || c == '\r' || c == '\x0b' || c == '\x0c'

/-- match of the regex https?://[^\s]+ anchored at the start of the
character list: the scheme followed by at least one non-space character,
taking the maximal non-space run. -/
def urlAt (l : List Char) : Option (List Char) :=
  if ("https://".toList).isPrefixOf l then
    match l.drop 8 with
    | [] => none
    | c :: _ =>
      if isJsSpace c then none
      else some ("https://".toList ++ (l.drop 8).takeWhile (fun ch => !isJsSpace ch))
  else if ("http://".toList).isPrefixOf l then
    match l.drop 7 with
    | [] => none
    | c :: _ =>
      if isJsSpace c then none
      else some ("http://".toList ++ (l.drop 7).takeWhile (fun ch => !isJsSpace ch))
  else none

/-- leftmost match of the URL regex in the character list. -/
def scanUrl : List Char → Option (List Char)
  | [] => none
  | c :: cs =>
    match urlAt (c :: cs) with
    | some r => some r
    | none => scanUrl cs

/-- extractUrlFromMessage (lines 738-742): the first match of the URL regex
in the text, or undefined when there is none. -/
def extractUrlFromMessage (s : String) : Option String :=
  (scanUrl s.toList).map (fun l => String.mk l)

/-- JavaScript a || b on optional strings: b when a is absent or empty. -/
def jsOrStr (a b : Option String) : Option String :=
  if strTruthy a then a else b

/-- observable outcome of the handler prefix: an unclear-request refusal, the
thrown configuration error (caught at line 234 and surfaced to the caller),
or proceeding to browser work with the chosen URL. -/
inductive HandlerOutcome where
  | unclearDataType
  | noUrl (message : String)
  | proceeded (url : String)
  deriving DecidableEq, Repr

/-- trace of the handler prefix: whether setupWebDriver was reached, and the
outcome. -/
structure HandlerTrace where
  driverCreated : Bool
  outcome : HandlerOutcome
  deriving DecidableEq, Repr

/-- the control flow of seleniumflexibleAction.handler up to browser creation
(lines 186-211): empty dataTypes returns failure with no browser; otherwise
the website URL is the URL found in the message text, falling back to the
WEBSITE_URL setting, and a falsy result throws the explicit configuration
error before setupWebDriver is called at line 210. dataTypes is the result of
the external classification step. -/
def handlerSetup (messageText : String) (websiteUrlSetting : Option String)
    (dataTypes : List String) : HandlerTrace :=
  if dataTypes.isEmpty then ⟨false, .unclearDataType⟩
  else
    match jsOrStr (extractUrlFromMessage messageText) websiteUrlSetting with
    | none => ⟨false, .noUrl "No website URL provided or configured"⟩
    | some u =>
      if u = "" then ⟨false, .noUrl "No website URL provided or configured"⟩
      else ⟨true, .proceeded u⟩

/- Helper lemmas. -/

/-- a Set never keeps a duplicate: inserting a value already present is a
no-op. -/
lemma setAdd_mem_eq {s : List JSValue} {v : JSValue} (hv : v ∈ s) : setAdd s v = s := by
  simp [setAdd, hv]

/-- Set insertion preserves distinctness of the element list. -/
lemma setAdd_nodup {s : List JSValue} (v : JSValue) (h : s.Nodup) : (setAdd s v).Nodup := by
  unfold setAdd
  split_ifs with hv
  · exact h
  · refine List.Nodup.append h (List.nodup_singleton v) ?_
    intro a ha hav
    rw [List.mem_singleton] at hav
    exact hv (hav ▸ ha)

lemma foldl_setAdd_nodup (vs : List JSValue) :
    ∀ s : List JSValue, s.Nodup → (vs.foldl setAdd s).Nodup := by
  induction vs with
  | nil => intro s h; simpa using h
  | cons v vs ih => intro s h; exact ih _ (setAdd_nodup v h)

lemma processMatches_nodup (cfg : ExtractionConfig) :
    ∀ (ms : List String) (s : List JSValue) (ctr : Nat),
      s.Nodup → (processMatches cfg ms s ctr).1.Nodup := by
  intro ms
  induction ms with
  | nil => intro s ctr h; simpa [processMatches] using h
  | cons m ms ih =>
    intro s ctr h
    simp only [processMatches]
    apply ih
    split_ifs with hp
    · exact setAdd_nodup _ h
    · exact h

lemma procRegexes_nodup (matchFn : Nat → String → Option (List String))
    (cfg : ExtractionConfig) (text : String) :
    ∀ (rxs : List Nat) (acc : List JSValue × Nat),
      acc.1.Nodup → (procRegexes matchFn cfg text rxs acc).1.Nodup := by
  intro rxs
  induction rxs with
  | nil => intro acc h; simpa [procRegexes] using h
  | cons rx rxs ih =>
    intro acc h
    simp only [procRegexes]
    apply ih
    cases hm : matchFn rx text with
    | some ms => exact processMatches_nodup cfg ms acc.1 acc.2 h
    | none => exact h

lemma procElements_nodup (matchFn : Nat → String → Option (List String)) (pat : DataPattern) :
    ∀ (rs : List (Except JsError (Option String))) (acc : List JSValue × Nat),
      acc.1.Nodup → (procElements matchFn pat rs acc).1.Nodup := by
  intro rs
  induction rs with
  | nil => intro acc h; simpa [procElements] using h
  | cons r rs ih =>
    intro acc h
    simp only [procElements]
    apply ih
    match r with
    | .ok (some t) =>
      simp only
      split_ifs with ht
      · exact procRegexes_nodup matchFn pat.config t pat.patterns acc h
      · exact h
    | .ok none => exact h
    | .error _ => exact h

lemma procSelectors_nodup (matchFn : Nat → String → Option (List String))
    (env : String → Except JsError (List (Except JsError (Option String))))
    (pat : DataPattern) :
    ∀ (sels : List String) (acc : List JSValue × Nat),
      acc.1.Nodup → (procSelectors matchFn env pat sels acc).1.Nodup := by
  intro sels
  induction sels with
  | nil => intro acc h; simpa [procSelectors] using h
  | cons sel sels ih =>
    intro acc h
    simp only [procSelectors]
    apply ih
    cases he : env sel with
    | ok elems => exact procElements_nodup matchFn pat elems acc h
    | error e => exact h

lemma extractDataByPattern_nodup (bodyReady : Bool)
    (matchFn : Nat → String → Option (List String))
    (env : String → Except JsError (List (Except JsError (Option String))))
    (pat : DataPattern) : (extractDataByPattern bodyReady matchFn env pat).1.Nodup := by
  unfold extractDataByPattern
  split_ifs
  · exact procSelectors_nodup matchFn env pat pat.config.selectors ([], 0) List.nodup_nil
  · exact List.nodup_nil

lemma crawlLoop_nodup (pageValues : String → Except JsError (List JSValue)) :
    ∀ (q vis : List String) (res : List JSValue) (nav : List String),
      res.Nodup → (crawlLoop pageValues q vis res nav).results.Nodup := by
  intro q
  induction q with
  | nil => intro vis res nav h; simpa [crawlLoop] using h
  | cons url rest ih =>
    intro vis res nav h
    simp only [crawlLoop]
    split_ifs with hlen
    · apply ih
      cases hpv : pageValues url with
      | ok vs => exact foldl_setAdd_nodup vs res h
      | error e => exact h
    · exact h

lemma retryLoop_errors_then_ok {T : Type} (hd : Bool) (v : T) :
    ∀ (errs : List (Except JsError T)), (∀ x ∈ errs, ∃ e, x = Except.error e) →
      ∀ le, retryLoop hd (errs ++ [Except.ok v]) le = Except.ok v := by
  intro errs
  induction errs with
  | nil => intro _ le; simp [retryLoop]
  | cons x xs ih =>
    intro hall le
    obtain ⟨e, rfl⟩ := hall x (List.mem_cons_self x xs)
    have hxs : ∀ y ∈ xs, ∃ e2, y = Except.error e2 :=
      fun y hy => hall y (List.mem_cons_of_mem _ hy)
    simp only [List.cons_append, retryLoop]
    split_ifs with h1 h2
    · exact ih hxs (some e)
    · exfalso
      simp at h2
    · exact ih hxs (some e)

lemma retryLoop_all_errors {T : Type} (hd : Bool) (elast : JsError) :
    ∀ (errs : List (Except JsError T)), (∀ x ∈ errs, ∃ e, x = Except.error e) →
      ∀ le, retryLoop hd (errs ++ [Except.error elast]) le =
        (Except.error (some elast) : Except (Option JsError) T) := by
  intro errs
  induction errs with
  | nil =>
    intro _ le
    simp only [List.nil_append, retryLoop]
    split_ifs with h1 h2
    · simp [retryLoop]
    · rfl
    · exfalso
      simp at h2
  | cons x xs ih =>
    intro hall le
    obtain ⟨e, rfl⟩ := hall x (List.mem_cons_self x xs)
    have hxs : ∀ y ∈ xs, ∃ e2, y = Except.error e2 :=
      fun y hy => hall y (List.mem_cons_of_mem _ hy)
    simp only [List.cons_append, retryLoop]
    split_ifs with h1 h2
    · exact ih hxs (some e)
    · exfalso
      simp at h2
    · exact ih hxs (some e)

/-- C2: retryOperation with a budget of n + 1 attempts returns the success
value of an operation that fails its first n attempts and then succeeds;
an operation that fails all n + 1 attempts makes retryOperation rethrow the
failure observed on the final attempt; and the outcome depends only on the
first n + 1 attempt outcomes, so no further attempt is ever performed. -/
theorem retryOperation_spec {T : Type} (op op2 : Nat → Except JsError T)
    (hd : Bool) (n : Nat) (v : T) (f : Nat → JsError) :
    ((∀ i, i < n → op i = Except.error (f i)) → op n = Except.ok v →
      retryOperation op (n + 1) hd = Except.ok v) ∧
    ((∀ i, i < n + 1 → op i = Except.error (f i)) →
      retryOperation op (n + 1) hd = Except.error (some (f n))) ∧
    ((∀ i, i < n + 1 → op i = op2 i) →
      retryOperation op (n + 1) hd = retryOperation op2 (n + 1) hd) := by
  refine ⟨?_, ?_, ?_⟩
  · intro herr hok
    unfold retryOperation
    rw [List.range_succ, List.map_append, List.map_singleton, hok]
    apply retryLoop_errors_then_ok
    intro x hx
    obtain ⟨i, hi, rfl⟩ := List.mem_map.mp hx
    rw [List.mem_range] at hi
    exact ⟨f i, herr i hi⟩
  · intro herr
    unfold retryOperation
    rw [List.range_succ, List.map_append, List.map_singleton,
      herr n (Nat.lt_succ_self n)]
    apply retryLoop_all_errors
    intro x hx
    obtain ⟨i, hi, rfl⟩ := List.mem_map.mp hx
    rw [List.mem_range] at hi
    exact ⟨f i, herr i (Nat.lt_succ_of_lt hi)⟩
  · intro hagree
    unfold retryOperation
    congr 1
    apply List.map_congr_left
    intro i hi
    exact hagree i (List.mem_range.mp hi)

/-- witness for retryOperation_spec: with a budget of 3 attempts, an
operation failing twice then succeeding returns the success value, and an
operation failing three times rethrows the final failure. -/
theorem retryOperation_spec_witness :
    retryOperation (fun i => if i < 2 then Except.error (JsError.mk "boom") else Except.ok 7)
      3 false = Except.ok 7 ∧
    retryOperation (fun _ => (Except.error (JsError.mk "StaleElementReferenceError") :
      Except JsError Nat)) 3 true = Except.error (some (JsError.mk "StaleElementReferenceError")) :=
  ⟨(retryOperation_spec
      (fun i => if i < 2 then Except.error (JsError.mk "boom") else Except.ok 7)
      (fun i => if i < 2 then Except.error (JsError.mk "boom") else Except.ok 7)
      false 2 7 (fun _ => JsError.mk "boom")).1
      (by intro i hi; interval_cases i <;> rfl) rfl,
   (retryOperation_spec
      (fun _ => (Except.error (JsError.mk "StaleElementReferenceError") : Except JsError Nat))
      (fun _ => (Except.error (JsError.mk "StaleElementReferenceError") : Except JsError Nat))
      true 2 7 (fun _ => JsError.mk "StaleElementReferenceError")).2.1
      (by intro i hi; rfl)⟩

/-- C3: a crawl visits at most MAX_PAGES = 10 distinct URLs, and the seed URL
is always the first member of the visited set. -/
theorem crawl_visited_bounded_seed_first
    (pageValues : String → Except JsError (List JSValue)) (baseUrl : String) :
    (crawlAndExtract pageValues baseUrl).visitedUrls.length ≤ 10 ∧
    (crawlAndExtract pageValues baseUrl).visitedUrls.head? = some baseUrl := by
  cases hpv : pageValues baseUrl <;>
    simp [crawlAndExtract, crawlLoop, hpv]

/-- C9: the crawl loop body never appends to the frontier, so a crawl
navigates to exactly one URL (the seed), the visited set never grows beyond
the seed singleton, and the frontier is drained after the single loop
iteration. -/
theorem crawl_frontier_never_grows
    (pageValues : String → Except JsError (List JSValue)) (baseUrl : String) :
    (crawlAndExtract pageValues baseUrl).navLog = [baseUrl] ∧
    (crawlAndExtract pageValues baseUrl).visitedUrls = [baseUrl] ∧
    (crawlAndExtract pageValues baseUrl).urlsToVisit = [] := by
  cases hpv : pageValues baseUrl <;>
    simp [crawlAndExtract, crawlLoop, hpv]

/-- C6: result collections have set semantics. The result set of a crawl and
the result set of a single extraction contain each exact value at most once,
and inserting a value that is already present leaves the set unchanged. -/
theorem crawl_results_set_semantics
    (pageValues : String → Except JsError (List JSValue)) (baseUrl : String)
    (matchFn : Nat → String → Option (List String))
    (env : String → Except JsError (List (Except JsError (Option String))))
    (pat : DataPattern) (s : List JSValue) (v : JSValue) (hv : v ∈ s) :
    (crawlAndExtract pageValues baseUrl).results.Nodup ∧
    (extractDataByPattern true matchFn env pat).1.Nodup ∧
    setAdd s v = s :=
  ⟨crawlLoop_nodup pageValues [baseUrl] [baseUrl] [] [] List.nodup_nil,
   extractDataByPattern_nodup true matchFn env pat,
   setAdd_mem_eq hv⟩

/-- witness for crawl_results_set_semantics: a page yielding the same value
twice produces a crawl result set with one occurrence, and inserting a
present value concretely is a no-op. -/
theorem crawl_results_set_semantics_witness :
    (crawlAndExtract (fun _ => Except.ok [JSValue.str "a", JSValue.str "a"]) "u").results.Nodup ∧
    (extractDataByPattern true (fun _ _ => some ["a", "a"])
      (fun _ => Except.ok [Except.ok (some "a")])
      ⟨"P", [0], ⟨["s"], none, none, none⟩⟩).1.Nodup ∧
    setAdd [JSValue.str "a"] (JSValue.str "a") = [JSValue.str "a"] :=
  crawl_results_set_semantics (fun _ => Except.ok [JSValue.str "a", JSValue.str "a"]) "u"
    (fun _ _ => some ["a", "a"]) (fun _ => Except.ok [Except.ok (some "a")])
    ⟨"P", [0], ⟨["s"], none, none, none⟩⟩
    [JSValue.str "a"] (JSValue.str "a") (by simp)

lemma mapGet_mapSet_self (c : List (String × Bool)) (u : String) (b : Bool) :
    mapGet (mapSet c u b) u = some b := by
  induction c with
  | nil => simp [mapSet, mapGet]
  | cons kv rest ih =>
    obtain ⟨k, v⟩ := kv
    by_cases h : k = u
    · simp [mapSet, mapGet, h]
    · simp [mapSet, mapGet, h, ih]

lemma mapGet_mapSet_ne (c : List (String × Bool)) {w u : String} (b : Bool) (h : w ≠ u) :
    mapGet (mapSet c w b) u = mapGet c u := by
  induction c with
  | nil => simp [mapSet, mapGet, h]
  | cons kv rest ih =>
    obtain ⟨k, v⟩ := kv
    by_cases hkw : k = w
    · subst hkw
      simp [mapSet, mapGet, h]
    · by_cases hku : k = u
      · have huw : ¬u = w := fun hh => h hh.symm
        simp [mapSet, mapGet, hkw, hku, huw]
      · simp [mapSet, mapGet, hkw, hku, ih]

/-- one validation call preserves the invariant that the browser-side check
ran for a handle at most once, and never ran for a handle absent from the
cache. -/
lemma validate_nav_invariant (check : String → Except JsError Bool) (u w : String)
    (st : ValState)
    (h0 : mapGet st.cache u = none → st.navLog.count u = 0)
    (h1 : st.navLog.count u ≤ 1) :
    (mapGet (validateTwitterUsername check st w).2.cache u = none →
      (validateTwitterUsername check st w).2.navLog.count u = 0) ∧
    (validateTwitterUsername check st w).2.navLog.count u ≤ 1 := by
  unfold validateTwitterUsername
  cases hw : mapGet st.cache w with
  | some b => exact ⟨h0, h1⟩
  | none =>
    have hstep : ∀ bv : Bool,
        (mapGet (mapSet st.cache w bv) u = none → (st.navLog ++ [w]).count u = 0) ∧
        (st.navLog ++ [w]).count u ≤ 1 := by
      intro bv
      by_cases hwu : w = u
      · subst hwu
        constructor
        · intro hnone
          rw [mapGet_mapSet_self] at hnone
          exact absurd hnone (by simp)
        · have hz : st.navLog.count w = 0 := h0 hw
          simp [List.count_append, hz]
      · have hcnt : (st.navLog ++ [w]).count u = st.navLog.count u := by
          simp [List.count_append, List.count_singleton]
          intro hc
          exact absurd hc hwu
        constructor
        · intro hnone
          rw [mapGet_mapSet_ne st.cache bv hwu] at hnone
          rw [hcnt]
          exact h0 hnone
        · rw [hcnt]
          exact h1
    cases hc : check w with
    | ok bv => exact hstep bv
    | error e => exact hstep false

lemma runValidations_count_le (check : String → Except JsError Bool) (u : String) :
    ∀ (us : List String) (st : ValState),
      (mapGet st.cache u = none → st.navLog.count u = 0) →
      st.navLog.count u ≤ 1 →
      (runValidations check st us).navLog.count u ≤ 1 := by
  intro us
  induction us with
  | nil => intro st h0 h1; simpa [runValidations] using h1
  | cons w ws ih =>
    intro st h0 h1
    simp only [runValidations]
    obtain ⟨h0b, h1b⟩ := validate_nav_invariant check u w st h0 h1
    exact ih _ h0b h1b

/-- C4: starting from the empty process-wide cache, any sequence of
validation calls enters the browser-side check at most once per distinct
handle, and a call for a handle already in the cache returns the cached
boolean with the state (cache and navigation log) unchanged. -/
theorem validation_cache_once (check : String → Except JsError Bool)
    (us : List String) (u : String) (st : ValState) (b : Bool)
    (hcached : mapGet st.cache u = some b) :
    (runValidations check ⟨[], []⟩ us).navLog.count u ≤ 1 ∧
    validateTwitterUsername check st u = (b, st) := by
  constructor
  · exact runValidations_count_le check u us ⟨[], []⟩ (fun _ => rfl) (by simp)
  · unfold validateTwitterUsername
    rw [hcached]

/-- witness for validation_cache_once: two calls for the same handle and one
for another navigate at most once for the first handle, and a cached handle
is answered from the cache without touching the state. -/
theorem validation_cache_once_witness :
    (runValidations (fun _ => Except.ok true) ⟨[], []⟩ ["bob", "bob", "eve"]).navLog.count "bob" ≤ 1 ∧
    validateTwitterUsername (fun _ => Except.ok true)
      ⟨[("bob", true)], ["bob"]⟩ "bob" = (true, ⟨[("bob", true)], ["bob"]⟩) :=
  validation_cache_once (fun _ => Except.ok true) ["bob", "bob", "eve"] "bob"
    ⟨[("bob", true)], ["bob"]⟩ true rfl

/-- C5: a browser-side check that throws makes the validation routine return
false and cache false for that handle, and a subsequent call for the handle
is answered false from the cache with no state change, hence no further
browser-side validation. -/
theorem validation_error_cached_false (check : String → Except JsError Bool)
    (st : ValState) (u : String) (e : JsError)
    (hmiss : mapGet st.cache u = none) (herr : check u = Except.error e) :
    (validateTwitterUsername check st u).1 = false ∧
    mapGet (validateTwitterUsername check st u).2.cache u = some false ∧
    validateTwitterUsername check (validateTwitterUsername check st u).2 u =
      (false, (validateTwitterUsername check st u).2) := by
  have h1 : validateTwitterUsername check st u =
      (false, ⟨mapSet st.cache u false, st.navLog ++ [u]⟩) := by
    unfold validateTwitterUsername
    rw [hmiss, herr]
  rw [h1]
  refine ⟨rfl, mapGet_mapSet_self st.cache u false, ?_⟩
  unfold validateTwitterUsername
  rw [show mapGet (ValState.mk (mapSet st.cache u false) (st.navLog ++ [u])).cache u = some false
    from mapGet_mapSet_self st.cache u false]

/-- witness for validation_error_cached_false: a failing check for a fresh
handle yields false, caches false, and the second call is a pure cache hit. -/
theorem validation_error_cached_false_witness :
    (validateTwitterUsername (fun _ => Except.error (JsError.mk "nav")) ⟨[], []⟩ "ghost").1 = false ∧
    mapGet (validateTwitterUsername (fun _ => Except.error (JsError.mk "nav"))
      ⟨[], []⟩ "ghost").2.cache "ghost" = some false ∧
    validateTwitterUsername (fun _ => Except.error (JsError.mk "nav"))
      ((validateTwitterUsername (fun _ => Except.error (JsError.mk "nav")) ⟨[], []⟩ "ghost").2)
      "ghost" =
      (false, (validateTwitterUsername (fun _ => Except.error (JsError.mk "nav"))
        ⟨[], []⟩ "ghost").2) :=
  validation_error_cached_false (fun _ => Except.error (JsError.mk "nav")) ⟨[], []⟩
    "ghost" (JsError.mk "nav") rfl rfl

/-- config whose transform always returns null and which has no validate,
within the interface declared for ExtractionConfig (transform may return
null). -/
def falsyTransformConfig : ExtractionConfig :=
  ⟨["s"], none, some (Transform.sync fun _ => JSValue.nullV), none⟩

/-- pattern carrying falsyTransformConfig. -/
def falsyTransformPattern : DataPattern := ⟨"Falsy", [0], falsyTransformConfig⟩

/-- C1 counterexample: for a match whose transform yields null (falsy) and
with no validate, the null value is inserted into the result set, so the
claimed null/falsy drop after transform does not happen in the code. -/
theorem extract_falsy_value_inserted :
    (extractDataByPattern true (fun _ _ => some ["m"])
      (fun _ => Except.ok [Except.ok (some "m")]) falsyTransformPattern).1
      = [JSValue.nullV] ∧
    jsTruthy JSValue.nullV = false := by
  constructor
  · rfl
  · rfl

/-- C1 amended: for one regex match in an element text, the transform (when
present) is applied before validate, validate judges the transformed value,
and a value failing validate is excluded from the output even though the
transform succeeded; a falsy transform result is dropped only when validate
rejects it. -/
theorem extract_transform_before_validate (t : String → JSValue) (vf : JSValue → Bool)
    (m : String) :
    (extractDataByPattern true (fun _ _ => some [m])
      (fun _ => Except.ok [Except.ok (some "x")])
      ⟨"P", [0], ⟨["s"], none, some (Transform.sync t), some vf⟩⟩).1
      = (if vf (t m) then [t m] else []) := by
  cases hvf : vf (t m) <;>
    simp [extractDataByPattern, procSelectors, procElements, procRegexes,
      processMatches, applyTransform, passesValidate, callTransform, setAdd, hvf]

/-- C10: the transform is called with the raw match only and its result is
not awaited, so an async transform contributes the fresh unresolved Promise
object to the pipeline: validate (when present) judges the Promise, the
Promise is what enters the result set whatever the eventual value function f
computes, and a Promise is always truthy. -/
theorem extract_async_transform_yields_promise (f : String → JSValue)
    (vf : JSValue → Bool) (m : String) :
    (extractDataByPattern true (fun _ _ => some [m])
      (fun _ => Except.ok [Except.ok (some "x")])
      ⟨"Twitter Profiles", [0], ⟨["a"], none, some (Transform.async f), some vf⟩⟩).1
      = (if vf (JSValue.promise 0) then [JSValue.promise 0] else []) ∧
    (extractDataByPattern true (fun _ _ => some [m])
      (fun _ => Except.ok [Except.ok (some "x")])
      ⟨"Twitter Profiles", [0], ⟨["a"], none, some (Transform.async f), none⟩⟩).1
      = [JSValue.promise 0] ∧
    jsTruthy (JSValue.promise 0) = true := by
  refine ⟨?_, rfl, rfl⟩
  cases hvf : vf (JSValue.promise 0) <;>
    simp [extractDataByPattern, procSelectors, procElements, procRegexes,
      processMatches, applyTransform, passesValidate, callTransform, setAdd, hvf]

/-- generated specification with a truthy name, an empty pattern array and an
empty selector array. -/
def emptyListsGenPattern : GenPattern :=
  ⟨some "Synth", some [], some ⟨some [], none, none⟩⟩

/-- C7 counterexample: a synthesized specification with an empty pattern list
and an empty selector list passes validateAndTransformPattern (an array is
truthy in JavaScript even when empty, and selectors are never inspected) and
is registered under the proposed key, contradicting the claim that such a
specification is rejected and its key dropped. -/
theorem pattern_empty_lists_accepted :
    validateAndTransformPattern emptyListsGenPattern = some emptyListsGenPattern ∧
    emptyListsGenPattern.patterns = some [] ∧
    (emptyListsGenPattern.config.map GenConfig.selectors) = some (some []) ∧
    registerGenerated [] [] "synth" (validateAndTransformPattern emptyListsGenPattern) =
      ([("synth", emptyListsGenPattern)], ["synth"]) :=
  ⟨rfl, rfl, rfl, rfl⟩

/-- C7 amended: validateAndTransformPattern succeeds exactly when the name
field is truthy (present and non-empty) and the patterns and config fields
are present, with the emptiness of the pattern and selector lists never
checked; and when the generated pattern is null the proposed key is dropped,
leaving the registry and the key list unchanged. -/
theorem pattern_validation_truthiness_spec (p : GenPattern)
    (registry : List (String × GenPattern)) (types : List String) (k : String) :
    (validateAndTransformPattern p).isSome =
      (strTruthy p.name && p.patterns.isSome && p.config.isSome) ∧
    registerGenerated registry types k none = (registry, types) := by
  constructor
  · cases hn : strTruthy p.name <;> cases hp : p.patterns <;> cases hc : p.config <;>
      simp [validateAndTransformPattern, hn, hp, hc]
  · unfold registerGenerated
    split <;> rfl

/-- C8: when the request text contains no URL and the WEBSITE_URL setting is
falsy, the handler (with a non-empty set of requested data types) fails the
invocation with the explicit configuration error before setupWebDriver is
ever reached. -/
theorem handler_no_url_fails_before_driver (messageText : String)
    (websiteUrlSetting : Option String) (dataTypes : List String)
    (hmsg : extractUrlFromMessage messageText = none)
    (hset : strTruthy websiteUrlSetting = false)
    (hdt : dataTypes ≠ []) :
    handlerSetup messageText websiteUrlSetting dataTypes =
      ⟨false, HandlerOutcome.noUrl "No website URL provided or configured"⟩ := by
  have hde : dataTypes.isEmpty = false := by
    cases dataTypes with
    | nil => exact absurd rfl hdt
    | cons a l => rfl
  cases websiteUrlSetting with
  | none => simp [handlerSetup, hde, hmsg, jsOrStr, strTruthy]
  | some u =>
    have hu : u = "" := by simpa [strTruthy] using hset
    subst hu
    simp [handlerSetup, hde, hmsg, jsOrStr, strTruthy]

/-- witness for handler_no_url_fails_before_driver: a request without a URL
and with no configured setting fails with the configuration error and no
browser session. -/
theorem handler_no_url_fails_before_driver_witness :
    handlerSetup "find email addresses for me" none ["email"] =
      ⟨false, HandlerOutcome.noUrl "No website URL provided or configured"⟩ :=
  handler_no_url_fails_before_driver "find email addresses for me" none ["email"]
    rfl rfl (by simp)
